import Mathlib

/-!
Shallow embedding of `src/model/ngp.py` (Instant-NGP radiance field for
DreamFusion-style generation).  PyTorch float tensors over a single point are
modelled as real-valued 3-vectors (`Fin 3 → ℝ`); the external tiny-cuda-nn
collaborators (hash-grid encoder, spherical-harmonics encoder and the fused
MLP heads) are opaque function fields of the `NGPradianceField` structure,
exactly as the spec declares them (black-box differentiable collaborators).
Float literals `0.5`, `1e-2`, `1e-6`, `1e-20` from the source are written as
the exact rationals `1/2`, `1/100`, `1/10^20`.
-/

namespace NGP

noncomputable section

/-- A 3-vector of reals: one point / direction / rgb value of the batch. -/
abbrev Vec3 := Fin 3 → ℝ

/-- An encoded feature vector (width `1 + geo_feat_dim` in the source;
indices beyond that width are never consumed, so we model it as `ℕ → ℝ`). -/
abbrev Feat := ℕ → ℝ

/-- Sum of squares `(x**2).sum(-1)` of a 3-vector. -/
def sumsq (v : Vec3) : ℝ := v 0 ^ 2 + v 1 ^ 2 + v 2 ^ 2

/-- Euclidean magnitude `x.norm(dim=-1)` of a 3-vector. -/
def mag (v : Vec3) : ℝ := Real.sqrt (sumsq v)

/-- Dot product `normal @ light_direction`. -/
def dot3 (u v : Vec3) : ℝ := u 0 * v 0 + u 1 * v 1 + u 2 * v 2

/-- The zero 3-vector. -/
def zeroVec : Vec3 := fun _ => 0

/-- The standard basis vector along axis `j`. -/
def axisVec (j : Fin 3) : Vec3 := fun i => if i = j then 1 else 0

/-- `tensor.clamp(lo, hi)`, elementwise. -/
def clampVec (v : Vec3) (lo hi : ℝ) : Vec3 := fun i => max lo (min (v i) hi)

/-- Axis-aligned bounding box: `torch.split(aabb, 3, dim=-1)` of the 6-scalar
buffer gives the min corner and the max corner. -/
structure AABB where
  aabb_min : Vec3
  aabb_max : Vec3

/-- The identity AABB `[-1, 1]^3`. -/
def unitAABB : AABB := ⟨fun _ => -1, fun _ => 1⟩

/-- First phase of `contract_to_unisphere` (ngp.py lines 44-46): normalise by
the AABB, then map `[0,1]` to `[-1,1]` via `x * 2 - 1`. -/
def aabb_rescale (x : Vec3) (aabb : AABB) : Vec3 :=
  fun i => (x i - aabb.aabb_min i) / (aabb.aabb_max i - aabb.aabb_min i) * 2 - 1

/-- The `mag > 1` branch of the contraction (ngp.py line 58):
`x' = (2 - 1/mag) * (x/mag)`. -/
def contract_branch (y : Vec3) : Vec3 :=
  fun i => (2 - 1 / mag y) * (y i / mag y)

/-- `contract_to_unisphere` (ngp.py lines 38-60, `derivative=False` path):
rescale into `[-1,1]`, radially contract points with magnitude above 1, and
rescale the `[-inf, inf]` range into `[0,1]` via `x/4 + 0.5`.  The boolean
mask over the batch becomes a pointwise `if` on the single point. -/
def contract_to_unisphere (x : Vec3) (aabb : AABB) : Vec3 :=
  fun i =>
    (if 1 < mag (aabb_rescale x aabb)
      then contract_branch (aabb_rescale x aabb) i
      else aabb_rescale x aabb i) / 4 + 1 / 2

/-- The embedding fed to the rgb / normal heads: the optional direction
encoding concatenated with the encoded feature (ngp.py `_compute_embedding`).
Concatenation is modelled as a pair. -/
abbrev Emb := Option Feat × Feat

/-- `softplus` as used by torch: `log(1 + exp x)`. -/
def softplus (x : ℝ) : ℝ := Real.log (1 + Real.exp x)

/-- The radiance field.  The tcnn encoders / MLPs are opaque functions; the
configuration recorded by `__init__` (ngp.py lines 82-92) is kept as data.
`density_bias_scale` and `offset_scale` are registered on the instance at
lines 90-91 but, as claim C3 observes, never read again. -/
structure NGPradianceField where
  aabb : AABB
  use_viewdirs : Bool
  density_activation : ℝ → ℝ
  unbounded : Bool
  use_predict_normal : Bool
  density_bias_scale : ℝ
  offset_scale : ℝ
  mlp_encoder : Vec3 → Feat
  mlp_sigma : Feat → ℝ
  direction_encoding : Vec3 → Feat
  mlp_rgb : Emb → Vec3
  mlp_normal : Emb → Vec3
  mlp_bkgd : Feat → Vec3

/-- `density_bias` (ngp.py lines 187-189):
`tau = density_bias_scale * (1 - sqrt((x**2).sum(-1)) / offset_scale)`.
The Python defaults are `density_bias_scale=10`, `offset_scale=0.5`. -/
def density_bias (x : Vec3) (density_bias_scale : ℝ) (offset_scale : ℝ) : ℝ :=
  density_bias_scale * (1 - Real.sqrt (sumsq x) / offset_scale)

/-- The domain-mapped position used by `query_density` (ngp.py lines 194-198):
unisphere contraction when unbounded, linear AABB normalisation otherwise. -/
def mapped_position (f : NGPradianceField) (x : Vec3) : Vec3 :=
  if f.unbounded then contract_to_unisphere x f.aabb
  else fun i =>
    (x i - f.aabb.aabb_min i) / (f.aabb.aabb_max i - f.aabb.aabb_min i)

open Classical in
/-- The in-domain selector `((x > 0.0) & (x < 1.0)).all(dim=-1)` (ngp.py
line 199), already cast to the real number it multiplies density by. -/
def selector_mask (x : Vec3) : ℝ :=
  if ∀ i, 0 < x i ∧ x i < 1 then 1 else 0

/-- `query_density` with `return_feat=True` (ngp.py lines 191-219): the call
`self.density_bias(x)` at line 192 passes neither `self.density_bias_scale`
nor `self.offset_scale`, so the Python defaults `10` and `0.5` are what is
computed, on the raw pre-mapping position.  Returns `(density, feature)`. -/
def query_density_full (f : NGPradianceField) (x : Vec3) : ℝ × Feat :=
  let db := density_bias x 10 (1 / 2)
  let x' := mapped_position f x
  let sel := selector_mask x'
  let feat := f.mlp_encoder x'
  let h := f.mlp_sigma feat
  let density_before_activation := h + db
  let density := f.density_activation density_before_activation * sel
  (density, feat)

/-- `query_density` with `return_feat=False`: just the density. -/
def query_density (f : NGPradianceField) (x : Vec3) : ℝ :=
  (query_density_full f x).1

/-- `_compute_embedding` (ngp.py lines 221-228): remap the direction from
`[-1,1]` to `[0,1]`, encode it, and concatenate with the feature. -/
def _compute_embedding (f : NGPradianceField) (dir : Vec3) (feat : Feat) :
    Emb :=
  if f.use_viewdirs then
    (some (f.direction_encoding (fun i => (dir i + 1) / 2)), feat)
  else (none, feat)

/-- `_finite_difference_normals_approximator` (ngp.py lines 241-277).  Each
perturbed point is clamped into `[-bound, bound]`; `query_density` is called
with the positional argument `bound` in the `return_feat` slot, which is
truthy, so it returns the `(density, feature)` pair and the trailing `[0]`
selects the density — modelled by `(query_density_full ...).1`.  Python
defaults: `bound=2`, `epsilon=1e-2`. -/
def _finite_difference_normals_approximator (f : NGPradianceField)
    (positions : Vec3) (bound : ℝ) (epsilon : ℝ) : Vec3 :=
  let pos_x : Vec3 := fun i => positions i + (if i = 0 then epsilon else 0)
  let dist_dx_pos := (query_density_full f (clampVec pos_x (-bound) bound)).1
  let pos_y : Vec3 := fun i => positions i + (if i = 1 then epsilon else 0)
  let dist_dy_pos := (query_density_full f (clampVec pos_y (-bound) bound)).1
  let pos_z : Vec3 := fun i => positions i + (if i = 2 then epsilon else 0)
  let dist_dz_pos := (query_density_full f (clampVec pos_z (-bound) bound)).1
  let neg_x : Vec3 := fun i => positions i + (if i = 0 then -epsilon else 0)
  let dist_dx_neg := (query_density_full f (clampVec neg_x (-bound) bound)).1
  let neg_y : Vec3 := fun i => positions i + (if i = 1 then -epsilon else 0)
  let dist_dy_neg := (query_density_full f (clampVec neg_y (-bound) bound)).1
  let neg_z : Vec3 := fun i => positions i + (if i = 2 then -epsilon else 0)
  let dist_dz_neg := (query_density_full f (clampVec neg_z (-bound) bound)).1
  fun j =>
    if j = 0 then 1 / 2 * (dist_dx_pos - dist_dx_neg) / epsilon
    else if j = 1 then 1 / 2 * (dist_dy_pos - dist_dy_neg) / epsilon
    else 1 / 2 * (dist_dz_pos - dist_dz_neg) / epsilon

/-- Modelled from the spec (section 4.6): the finite-difference normal
estimator described in the spec's words — perturb each axis by `±epsilon`,
clamp into `[-bound, bound]`, query density only, and take the central
difference `0.5*(density(p+eps*axis) - density(p-eps*axis))/epsilon`. -/
def fd_normals_spec (f : NGPradianceField) (p : Vec3) (bound : ℝ)
    (epsilon : ℝ) : Vec3 :=
  fun j =>
    1 / 2 *
        (query_density f
            (clampVec (fun i => p i + epsilon * axisVec j i) (-bound) bound) -
          query_density f
            (clampVec (fun i => p i - epsilon * axisVec j i) (-bound) bound)) /
      epsilon

/-- `safe_normalize` (ngp.py lines 298-300):
`x / sqrt(clamp(sum(x*x), min=1e-20))`.  `clamp(v, min=m)` is `max v m`.
Over the reals the subsequent `nan_to_num_` is the identity, since the
divisor is strictly positive (claim C10). -/
def safe_normalize (v : Vec3) : Vec3 :=
  fun i => v i / Real.sqrt (max (sumsq v) (1 / 10 ^ 20))

/-- The Lambertian shading term (ngp.py lines 304-306):
`ambient + (1-ambient) * clamp(normal @ light / sqrt((light**2).sum()), min=0)`.
The source calls the blend factor `ambient_ratio`. -/
def lambertian_term (normal light : Vec3) (ambient : ℝ) : ℝ :=
  ambient + (1 - ambient) *
    max (dot3 normal light / Real.sqrt (sumsq light)) 0

/-- The error the spec says an unrecognized shading mode should fail with
(`UnsupportedShadingModeError`, spec sections 7 and 9).  The reference code
constructs `NotImplementedError()` at ngp.py line 313 without raising it, so
no execution path of `forward` actually produces this value. -/
inductive ShadingError where
  | unsupportedShadingMode : ShadingError
deriving DecidableEq

/-- `forward` (ngp.py lines 279-315), with the Python exception discipline
made explicit: a raised error would be `Except.error`, a normal return is
`Except.ok (rgb, density, normal)`.  The unrecognized-shading branch at
line 313 evaluates `NotImplementedError()` as a bare expression — the error
object is discarded and the raw `rgb` from the color head falls through, so
both branches below end in `Except.ok`. -/
def forward (f : NGPradianceField) (positions : Vec3) (directions : Vec3)
    (shading : String) (light_direction : Vec3) (ambient : ℝ) :
    Except ShadingError (Vec3 × ℝ × Option Vec3) :=
  let qd := query_density_full f positions
  let density := qd.1
  let embedding := _compute_embedding f directions qd.2
  let rgb := f.mlp_rgb embedding
  if shading = "albedo" then
    Except.ok (rgb, density, none)
  else
    let normal0 :=
      if f.use_predict_normal then f.mlp_normal embedding
      else _finite_difference_normals_approximator f positions 2 (1 / 100)
    let normal := safe_normalize normal0
    let lambertian := lambertian_term normal light_direction ambient
    let rgb' :=
      if shading = "textureless" then fun _ => lambertian
      else if shading = "lambertian" then fun i => rgb i * lambertian
      else rgb
    Except.ok (rgb', density, some normal)

/-- Rebuild a field with a different density-bias configuration, leaving
every other component unchanged: this is what `__init__` (ngp.py lines 90-91)
would store for other `density_bias_scale` / `offset_scale` arguments. -/
def set_bias_config (f : NGPradianceField) (s o : ℝ) : NGPradianceField :=
  ⟨f.aabb, f.use_viewdirs, f.density_activation, f.unbounded,
    f.use_predict_normal, s, o, f.mlp_encoder, f.mlp_sigma,
    f.direction_encoding, f.mlp_rgb, f.mlp_normal, f.mlp_bkgd⟩

/-- A concrete instance used by witnesses: identity AABB, bounded mode,
default `softplus(x-1)` activation, constant collaborator networks, and a
normal head that always answers the x-axis unit vector. -/
def exampleField : NGPradianceField :=
  ⟨unitAABB, true, fun y => softplus (y - 1), false, true, 10, 1 / 2,
    fun _ _ => 0, fun _ => 0, fun _ _ => 0, fun _ _ => 0,
    fun _ => axisVec 0, fun _ _ => 0⟩

/-- The raw position `(10, 0, 0)`, far outside the identity AABB. -/
def exampleFar : Vec3 := fun i => if i = 0 then 10 else 0

/-- The raw position `(5, 5, 5)`, which the bounded domain map of
`exampleField` sends to `(3, 3, 3)`, outside the unit cube. -/
def exampleOutside : Vec3 := fun _ => 5

end

/-! ## Helper lemmas -/

/-- `softplus` is nonnegative: `log(1 + exp x) ≥ 0` because `1 + exp x ≥ 1`. -/
lemma softplus_nonneg (x : ℝ) : 0 ≤ softplus x :=
  Real.log_nonneg (by linarith [Real.exp_pos x])

lemma selector_mask_nonneg (x : Vec3) : 0 ≤ selector_mask x := by
  unfold selector_mask
  split <;> norm_num

/-- Unfolding of `query_density` to its selector-masked product form. -/
lemma query_density_eq (f : NGPradianceField) (x : Vec3) :
    query_density f x =
      f.density_activation
          (f.mlp_sigma (f.mlp_encoder (mapped_position f x)) +
            density_bias x 10 (1 / 2)) *
        selector_mask (mapped_position f x) := rfl

/-- Each coordinate is bounded in absolute value by the magnitude. -/
lemma abs_le_mag (v : Vec3) (i : Fin 3) : |v i| ≤ mag v := by
  rw [mag, ← Real.sqrt_sq_eq_abs]
  apply Real.sqrt_le_sqrt
  unfold sumsq
  fin_cases i <;> simp <;>
    nlinarith [sq_nonneg (v 0), sq_nonneg (v 1), sq_nonneg (v 2)]

/-- With the identity AABB `[-1,1]^3` the rescale into `[-1,1]` is the
identity map. -/
lemma unit_rescale (v : Vec3) : aabb_rescale v unitAABB = v := by
  funext i
  simp only [aabb_rescale, unitAABB]
  ring

/-- The `mag > 1` contraction branch lands strictly inside `(-2, 2)` on each
coordinate. -/
lemma contract_branch_abs_lt_two (y : Vec3) (h : 1 < mag y) (i : Fin 3) :
    |contract_branch y i| < 2 := by
  have hm0 : 0 < mag y := lt_trans one_pos h
  have hinv : 1 / mag y < 1 := by rw [div_lt_one hm0]; exact h
  have hinv0 : 0 < 1 / mag y := by positivity
  have h2m : 0 < 2 - 1 / mag y := by linarith
  have hq : |y i / mag y| ≤ 1 := by
    rw [abs_div, abs_of_pos hm0]
    exact (div_le_one hm0).mpr (abs_le_mag y i)
  have hle : |contract_branch y i| ≤ 2 - 1 / mag y := by
    unfold contract_branch
    rw [abs_mul, abs_of_pos h2m]
    calc (2 - 1 / mag y) * |y i / mag y| ≤ (2 - 1 / mag y) * 1 :=
          mul_le_mul_of_nonneg_left hq (le_of_lt h2m)
      _ = 2 - 1 / mag y := mul_one _
  linarith

/-- Rewriting the code's axis perturbation `+ [eps at axis j]` into the
spec's `+ eps * axisVec j`. -/
lemma perturb_plus (p : Vec3) (eps : ℝ) (j : Fin 3) :
    (fun i => p i + (if i = j then eps else 0)) =
      fun i => p i + eps * axisVec j i := by
  funext i
  by_cases hij : i = j <;> simp [axisVec, hij]

/-- Rewriting the code's axis perturbation `+ [-eps at axis j]` into the
spec's `- eps * axisVec j`. -/
lemma perturb_minus (p : Vec3) (eps : ℝ) (j : Fin 3) :
    (fun i => p i + (if i = j then -eps else 0)) =
      fun i => p i - eps * axisVec j i := by
  funext i
  by_cases hij : i = j <;> simp [axisVec, hij, sub_eq_add_neg]

/-- If the raw normal clears the `1e-20` clamp, the Lambertian term of a
light parallel to the safe-normalized normal is exactly 1, for any ambient
blend factor. -/
lemma lambertian_parallel (v : Vec3) (c a : ℝ) (hc : 0 < c)
    (hv : (1 : ℝ) / 10 ^ 20 ≤ sumsq v) :
    lambertian_term (safe_normalize v) (fun i => c * safe_normalize v i) a =
      1 := by
  have h0 : 0 < sumsq v := lt_of_lt_of_le (by norm_num) hv
  set s := Real.sqrt (sumsq v) with hs
  have hspos : 0 < s := Real.sqrt_pos.mpr h0
  have hsne : s ≠ 0 := ne_of_gt hspos
  have hs2 : s ^ 2 = sumsq v := Real.sq_sqrt h0.le
  have hvsum : v 0 ^ 2 + v 1 ^ 2 + v 2 ^ 2 = s ^ 2 := by rw [hs2]; rfl
  have hnorm : safe_normalize v = fun i => v i / s := by
    unfold safe_normalize
    rw [max_eq_left hv]
  have hdot : dot3 (safe_normalize v) (fun i => c * safe_normalize v i) =
      c := by
    rw [hnorm]
    show v 0 / s * (c * (v 0 / s)) + v 1 / s * (c * (v 1 / s)) +
        v 2 / s * (c * (v 2 / s)) = c
    calc v 0 / s * (c * (v 0 / s)) + v 1 / s * (c * (v 1 / s)) +
          v 2 / s * (c * (v 2 / s)) =
        c * ((v 0 ^ 2 + v 1 ^ 2 + v 2 ^ 2) / s ^ 2) := by ring
      _ = c * (s ^ 2 / s ^ 2) := by rw [hvsum]
      _ = c := by rw [div_self (pow_ne_zero 2 hsne), mul_one]
  have hlight : sumsq (fun i => c * safe_normalize v i) = c ^ 2 := by
    rw [hnorm]
    show (c * (v 0 / s)) ^ 2 + (c * (v 1 / s)) ^ 2 + (c * (v 2 / s)) ^ 2 =
      c ^ 2
    calc (c * (v 0 / s)) ^ 2 + (c * (v 1 / s)) ^ 2 + (c * (v 2 / s)) ^ 2 =
        c ^ 2 * ((v 0 ^ 2 + v 1 ^ 2 + v 2 ^ 2) / s ^ 2) := by ring
      _ = c ^ 2 * (s ^ 2 / s ^ 2) := by rw [hvsum]
      _ = c ^ 2 := by rw [div_self (pow_ne_zero 2 hsne), mul_one]
  unfold lambertian_term
  rw [hdot, hlight, Real.sqrt_sq hc.le, div_self (ne_of_gt hc),
    max_eq_left zero_le_one]
  ring

/-! ## Claim theorems -/

/-- Claim C2: for every position whose domain-mapped image is not strictly
inside the unit cube `(0,1)^3` on every axis, `query_density` returns a
density that is exactly 0, regardless of the value produced by the density
head and bias. -/
theorem query_density_zero_outside (f : NGPradianceField) (x : Vec3)
    (h : ¬ ∀ i, 0 < mapped_position f x i ∧ mapped_position f x i < 1) :
    query_density f x = 0 := by
  rw [query_density_eq]
  unfold selector_mask
  rw [if_neg h, mul_zero]

/-- Witness for C2: `exampleField` in bounded mode maps `(5,5,5)` to
`(3,3,3)`, outside the unit cube, and the density there is 0. -/
theorem query_density_zero_outside_witness :
    (¬ ∀ i, 0 < mapped_position exampleField exampleOutside i ∧
        mapped_position exampleField exampleOutside i < 1) ∧
      query_density exampleField exampleOutside = 0 := by
  have h : ¬ ∀ i, 0 < mapped_position exampleField exampleOutside i ∧
      mapped_position exampleField exampleOutside i < 1 := by
    intro hall
    have h0 := (hall 0).2
    rw [show mapped_position exampleField exampleOutside 0 = 3 from by
      norm_num [mapped_position, exampleField, unitAABB, exampleOutside]]
      at h0
    norm_num at h0
  exact ⟨h, query_density_zero_outside exampleField exampleOutside h⟩

/-- Claim C3: `query_density` invokes `density_bias` without passing the
stored configuration, so the bias used is always the default
`10 * (1 - sqrt(sum(position^2)) / 0.5)` on the raw pre-mapping position:
changing the stored `density_bias_scale` / `offset_scale` changes those
stored fields but not the result of `query_density`. -/
theorem query_density_ignores_bias_config (f : NGPradianceField) (s o : ℝ)
    (x : Vec3) :
    (set_bias_config f s o).density_bias_scale = s ∧
      (set_bias_config f s o).offset_scale = o ∧
      query_density_full (set_bias_config f s o) x = query_density_full f x ∧
      density_bias x 10 (1 / 2) =
        10 * (1 - Real.sqrt (sumsq x) / (1 / 2)) :=
  ⟨rfl, rfl, rfl, rfl⟩

/-- Claim C4: for every finite pre-activation input, the density returned by
`query_density` under the default activation `softplus(x - 1)` is ≥ 0. -/
theorem query_density_nonneg_softplus (f : NGPradianceField) (x : Vec3)
    (h : f.density_activation = fun y => softplus (y - 1)) :
    0 ≤ query_density f x := by
  rw [query_density_eq, h]
  exact mul_nonneg (softplus_nonneg _) (selector_mask_nonneg _)

/-- Witness for C4: `exampleField` uses the default activation and its
density at the origin is nonnegative. -/
theorem query_density_nonneg_softplus_witness :
    exampleField.density_activation = (fun y => softplus (y - 1)) ∧
      0 ≤ query_density exampleField zeroVec :=
  ⟨rfl, query_density_nonneg_softplus exampleField zeroVec rfl⟩

/-- Claim C9: for every call to `forward` with `shading = "albedo"`, the
returned normal is exactly `none` and the returned rgb equals the raw
color-head output with no lighting modification applied. -/
theorem forward_albedo_raw (f : NGPradianceField) (p d light : Vec3)
    (a : ℝ) :
    forward f p d "albedo" light a =
      Except.ok
        (f.mlp_rgb (_compute_embedding f d (query_density_full f p).2),
          (query_density_full f p).1, none) := by
  simp [forward]

/-- Claim C1 (code bug exhibit): for every shading mode other than
`"albedo"`, `"textureless"` and `"lambertian"`, `forward` does NOT fail: the
`NotImplementedError()` at ngp.py line 313 is constructed but never raised,
so the call returns `Except.ok` with the raw color-head rgb falling
through. -/
theorem forward_unknown_shading_returns (f : NGPradianceField)
    (p d light : Vec3) (a : ℝ) (shading : String)
    (h1 : shading ≠ "albedo") (h2 : shading ≠ "textureless")
    (h3 : shading ≠ "lambertian") :
    forward f p d shading light a =
      Except.ok
        (f.mlp_rgb (_compute_embedding f d (query_density_full f p).2),
          (query_density_full f p).1,
          some (safe_normalize
            (if f.use_predict_normal then
              f.mlp_normal (_compute_embedding f d (query_density_full f p).2)
            else
              _finite_difference_normals_approximator f p 2 (1 / 100)))) := by
  simp [forward, h1, h2, h3]

/-- Witness for C1: at the unrecognized mode `"phong"` the call still
returns a normal `Except.ok` result. -/
theorem forward_unknown_shading_returns_witness :
    forward exampleField zeroVec zeroVec "phong" zeroVec (1 / 10) =
      Except.ok
        (exampleField.mlp_rgb
            (_compute_embedding exampleField zeroVec
              (query_density_full exampleField zeroVec).2),
          (query_density_full exampleField zeroVec).1,
          some (safe_normalize
            (if exampleField.use_predict_normal then
              exampleField.mlp_normal
                (_compute_embedding exampleField zeroVec
                  (query_density_full exampleField zeroVec).2)
            else
              _finite_difference_normals_approximator exampleField zeroVec 2
                (1 / 100)))) :=
  forward_unknown_shading_returns exampleField zeroVec zeroVec zeroVec
    (1 / 10) "phong" (by decide) (by decide) (by decide)

/-- Claim C10: `safe_normalize` applied to the zero vector yields a finite
result: the squared norm is clamped below at `1e-20`, the divisor
`sqrt(1e-20)` is strictly positive, so no division by zero occurs and the
output is the (finite) zero vector. -/
theorem safe_normalize_zero_finite :
    max (sumsq zeroVec) (1 / 10 ^ 20) = 1 / 10 ^ 20 ∧
      0 < Real.sqrt (max (sumsq zeroVec) (1 / 10 ^ 20)) ∧
      safe_normalize zeroVec = zeroVec := by
  have h0 : sumsq zeroVec = 0 := by norm_num [sumsq, zeroVec]
  have hmax : max (sumsq zeroVec) ((1 : ℝ) / 10 ^ 20) = 1 / 10 ^ 20 := by
    rw [h0]
    exact max_eq_right (by norm_num)
  refine ⟨hmax, ?_, ?_⟩
  · rw [hmax]
    exact Real.sqrt_pos.mpr (by norm_num)
  · funext i
    unfold safe_normalize
    simp [zeroVec]

/-- Claim C7: the unisphere contraction is continuous at magnitude 1: at any
point whose rescaled magnitude is exactly 1, the `m > 1` contraction formula
agrees with the identity pass-through, and `contract_to_unisphere` computes
the same value through either branch. -/
theorem contract_branch_agrees_at_boundary (x : Vec3) (aabb : AABB)
    (h : mag (aabb_rescale x aabb) = 1) :
    contract_branch (aabb_rescale x aabb) = aabb_rescale x aabb ∧
      contract_to_unisphere x aabb =
        fun i => contract_branch (aabb_rescale x aabb) i / 4 + 1 / 2 := by
  have hb : contract_branch (aabb_rescale x aabb) = aabb_rescale x aabb := by
    funext i
    unfold contract_branch
    rw [h]
    norm_num
  refine ⟨hb, ?_⟩
  funext i
  unfold contract_to_unisphere
  rw [hb, h]
  norm_num

/-- Witness for C7: the boundary point `(1,0,0)` (fixed by the identity-AABB
rescale) has magnitude exactly 1 and both branches agree on it. -/
theorem contract_branch_agrees_at_boundary_witness :
    mag (aabb_rescale (axisVec 0) unitAABB) = 1 ∧
      contract_branch (aabb_rescale (axisVec 0) unitAABB) =
        aabb_rescale (axisVec 0) unitAABB := by
  have hmag : mag (aabb_rescale (axisVec 0) unitAABB) = 1 := by
    rw [unit_rescale]
    unfold mag
    rw [show sumsq (axisVec 0) = 1 from by
      norm_num [sumsq, axisVec, Fin.ext_iff]]
    exact Real.sqrt_one
  exact ⟨hmag,
    (contract_branch_agrees_at_boundary (axisVec 0) unitAABB hmag).1⟩

/-- Claim C6: in unbounded mode with the identity AABB `[-1,1]^3`, every
position whose rescaled magnitude exceeds 1 is contracted (after the final
`x/4 + 0.5` rescale) to a point with every coordinate strictly inside
`(0, 1)`. -/
theorem contract_unbounded_strictly_inside (x : Vec3)
    (h : 1 < mag (aabb_rescale x unitAABB)) (i : Fin 3) :
    0 < contract_to_unisphere x unitAABB i ∧
      contract_to_unisphere x unitAABB i < 1 := by
  have hb := abs_lt.mp (contract_branch_abs_lt_two (aabb_rescale x unitAABB) h i)
  unfold contract_to_unisphere
  rw [if_pos h]
  constructor <;> linarith [hb.1, hb.2]

/-- Witness for C6: the raw position `(10,0,0)` rescales to itself under the
identity AABB, has magnitude 10 > 1, and its contraction stays strictly
inside `(0,1)` on the first axis. -/
theorem contract_unbounded_strictly_inside_witness :
    1 < mag (aabb_rescale exampleFar unitAABB) ∧
      (0 < contract_to_unisphere exampleFar unitAABB 0 ∧
        contract_to_unisphere exampleFar unitAABB 0 < 1) := by
  have hmag : 1 < mag (aabb_rescale exampleFar unitAABB) := by
    rw [unit_rescale]
    unfold mag
    rw [show sumsq exampleFar = 100 from by
      norm_num [sumsq, exampleFar, Fin.ext_iff]]
    rw [show (100 : ℝ) = 10 ^ 2 from by norm_num,
      Real.sqrt_sq (by norm_num : (0 : ℝ) ≤ 10)]
    norm_num
  exact ⟨hmag, contract_unbounded_strictly_inside exampleFar hmag 0⟩

/-- Claim C5: the finite-difference normal estimator perturbs each axis by
`±epsilon`, clamps each of the six perturbed points into `[-bound, bound]`,
evaluates only the density component of `query_density` at each, and returns
the central differences `0.5*(density(p+eps*axis) - density(p-eps*axis))/eps`
per axis — i.e. it coincides with the estimator the spec describes, for
every `bound` and `epsilon` (in particular the defaults 2 and 1e-2). -/
theorem fd_normals_matches_spec (f : NGPradianceField) (p : Vec3)
    (bound epsilon : ℝ) :
    _finite_difference_normals_approximator f p bound epsilon =
      fd_normals_spec f p bound epsilon := by
  funext j
  simp only [_finite_difference_normals_approximator, fd_normals_spec,
    query_density, perturb_plus, perturb_minus]
  have hj : j = 0 ∨ j = 1 ∨ j = 2 := by omega
  rcases hj with h | h | h <;> subst h <;> simp [Fin.ext_iff, sub_eq_add_neg]

/-- Claim C8: with `shading = "textureless"`, `ambient_ratio = 0.1` and the
light direction parallel to the safe-normalized predicted normal, the
Lambertian term equals 1 and the returned rgb is `(1,1,1)`. -/
theorem forward_textureless_parallel (f : NGPradianceField) (p d v : Vec3)
    (c : ℝ) (hpn : f.use_predict_normal = true)
    (hv : v = f.mlp_normal (_compute_embedding f d (query_density_full f p).2))
    (hc : 0 < c) (hs : (1 : ℝ) / 10 ^ 20 ≤ sumsq v) :
    lambertian_term (safe_normalize v) (fun i => c * safe_normalize v i)
        (1 / 10) = 1 ∧
      forward f p d "textureless" (fun i => c * safe_normalize v i)
          (1 / 10) =
        Except.ok (fun _ => 1, (query_density_full f p).1,
          some (safe_normalize v)) := by
  have hl := lambertian_parallel v c (1 / 10) hc hs
  refine ⟨hl, ?_⟩
  simp only [forward]
  rw [if_neg (show ¬("textureless" : String) = "albedo" from by decide)]
  simp only [hpn, eq_self_iff_true, if_true, ← hv]
  rw [show (fun _ : Fin 3 =>
      lambertian_term (safe_normalize v) (fun i => c * safe_normalize v i)
        (1 / 10)) = (fun _ : Fin 3 => (1 : ℝ)) from funext fun _ => hl]

/-- Witness for C8: `exampleField` predicts the unit x-axis normal; with the
light equal to that normalized normal the rgb is `(1,1,1)`. -/
theorem forward_textureless_parallel_witness :
    lambertian_term (safe_normalize (axisVec 0))
        (fun i => 1 * safe_normalize (axisVec 0) i) (1 / 10) = 1 ∧
      forward exampleField zeroVec zeroVec "textureless"
          (fun i => 1 * safe_normalize (axisVec 0) i) (1 / 10) =
        Except.ok (fun _ => 1, (query_density_full exampleField zeroVec).1,
          some (safe_normalize (axisVec 0))) :=
  forward_textureless_parallel exampleField zeroVec zeroVec (axisVec 0) 1 rfl
    rfl (by norm_num) (by norm_num [sumsq, axisVec, Fin.ext_iff])

end NGP
